import Mathlib

/-!
# Verification of the `mk` mock-server CLI core

Shallow embedding of the request/response normalization layer, the JSON
input resolver, the delay-model validation and the settings store of the
`mk` repository (`src/mk/api.py`, `src/mk/handlers.py`, `src/mk/models.py`,
`src/mk/settings.py`, `src/mk/cli.py`), together with theorems settling
the spec claims about them.

External collaborators (the `requests` HTTP transport, the stdlib JSON
codec `json.loads` / `json.dumps`, and the file system) are modelled as
explicit parameters: a transport call outcome is an
`Except RequestExn HttpResp`, JSON decoding is an oracle
`String → Except DecodeErr JsonVal`, the file system is a partial map
`String → Option String` from paths to contents, and serialization is an
oracle function.  Everything written in the repository itself is
translated directly from the source.
-/

/-- Decoded JSON values, as produced by Python's `json.loads`.
Numbers are modelled as integers (all numbers appearing in the claims and
tests are integers). -/
inductive JsonVal : Type where
  | null : JsonVal
  | bool : Bool → JsonVal
  | num : Int → JsonVal
  | str : String → JsonVal
  | arr : List JsonVal → JsonVal
  | obj : List (String × JsonVal) → JsonVal
  deriving Repr

/-- Python truthiness (`bool(x)`) on decoded JSON values: `None`, `False`,
`0`, `""`, `[]` and `\x7b\x7d` are falsy, everything else truthy. -/
def pyTruthy : JsonVal → Bool
  | .null => false
  | .bool b => b
  | .num n => n != 0
  | .str s => s != ""
  | .arr l => !l.isEmpty
  | .obj l => !l.isEmpty

/-- Python `repr` of a tuple of integers, as interpolated by an f-string:
`(201,)` for a singleton, `(200, 201)` otherwise.  Mirrors the rendering of
`success_codes` in `handlers.give_response`. -/
def pyTupleRepr (xs : List Nat) : String :=
  match xs with
  | [] => "()"
  | [a] => "(" ++ toString a ++ ",)"
  | _ => "(" ++ String.intercalate ", " (xs.map toString) ++ ")"

/-- The Result Envelope: dataclass `Response` of `src/mk/api.py` with its
field defaults (`status_code = 0`, `reason = ''`, `url = ''`,
`data = None`, `error = None`). -/
structure Response where
  status_code : Nat := 0
  reason : String := ""
  url : String := ""
  data : Option JsonVal := none
  error : Option String := none
  deriving Repr

/-- The transport-level exception kinds caught by
`Response.process_response` (`src/mk/api.py`), one per `except` clause, in
source order. -/
inductive RequestExn : Type where
  | connectTimeout
  | readTimeout
  | timeout
  | tooManyRedirects
  | urlRequired
  | httpError
  | connectionError
  | requestException
  deriving Repr

/-- The fixed human-readable message stored for each transport exception
kind (`src/mk/api.py`, lines 31-54). -/
def exnMessage : RequestExn → String
  | .connectTimeout => "The request timed out while trying to connect to the remote server."
  | .readTimeout => "The server did not send any data in the allotted amount of time."
  | .timeout => "The request timed out."
  | .tooManyRedirects => "Too many redirects."
  | .urlRequired => "A valid URL is required to make a request."
  | .httpError => "An HTTP error occurred."
  | .connectionError => "A Connection error occurred."
  | .requestException => "There was an ambiguous exception that occurred while handling your request."

/-- A completed HTTP exchange as observed by `process_response`: status
code, reason phrase, resolved URL, and the decoded body when the content
was non-empty (`data` stays absent on an empty body).  JSON decoding of a
non-empty body is modelled as already performed, per the spec's stated
scope. -/
structure HttpResp where
  status_code : Nat
  reason : String
  url : String
  content : Option JsonVal
  deriving Repr

/-- Source `Response.process_response` (`src/mk/api.py`): a transport call either
completes with an HTTP response (fields copied into the envelope, `error`
left `None`) or raises one of the `requests` exceptions (all envelope
fields left at their defaults, `error` set to the fixed message). -/
def processResponse (outcome : Except RequestExn HttpResp) : Response :=
  match outcome with
  | .ok r => { status_code := r.status_code, reason := r.reason, url := r.url,
               data := r.content, error := none }
  | .error e => { error := some (exnMessage e) }

/-- Source `handlers.give_response` (`src/mk/handlers.py`, lines 12-17): the
status-set reduction.  Note that it inspects only `status_code` and
`data`; the envelope's `error` field is never read. -/
def give_response (response : Response) (success_codes : List Nat) :
    Option JsonVal × Option String :=
  let err : Option String :=
    if response.status_code ∈ success_codes then none
    else some ("Expected one of " ++ pyTupleRepr success_codes ++
               " HTTP codes, got " ++ toString response.status_code)
  (response.data, err)

/-- Source `Mappings.get_by_id` / `Mappings.update_by_id` envelope reduction
(`src/mk/handlers.py`, lines 175-185 and 193-202): the resource-specific
reduction for mapping lookups by ID.  Mirrors the source's two sequential
`if` statements (the second assignment overwrites the first when both
guards hold). -/
def mappings_by_id_reduce (response : Response) : Option JsonVal × Option String :=
  match response.error with
  | some e => (response.data, some e)
  | none =>
    let err0 : Option String := none
    let err1 : Option String :=
      if response.status_code = 404 then
        some ("No mapping with such id on service " ++ response.url)
      else err0
    let err2 : Option String :=
      if response.status_code ≠ 200 then
        some ("Unexpected response status code " ++ toString response.status_code ++
              " " ++ response.reason ++ " from " ++ response.url)
      else err1
    (response.data, err2)

/-- Source `Journal.get_by_id` envelope reduction (`src/mk/handlers.py`,
lines 222-232); same structure as the mapping reduction with the
journal-specific not-found message. -/
def journal_by_id_reduce (response : Response) : Option JsonVal × Option String :=
  match response.error with
  | some e => (response.data, some e)
  | none =>
    let err0 : Option String := none
    let err1 : Option String :=
      if response.status_code = 404 then
        some ("No request with such id in Journal service " ++ response.url)
      else err0
    let err2 : Option String :=
      if response.status_code ≠ 200 then
        some ("Unexpected response status code " ++ toString response.status_code ++
              " " ++ response.reason ++ " from " ++ response.url)
      else err1
    (response.data, err2)

/-- A `json.decoder.JSONDecodeError`: message and position data used to
format the handler error strings. -/
structure DecodeErr where
  msg : String
  lineno : Int
  colno : Int
  pos : Int
  deriving Repr

/-- The decode-error string built by `load_json_string`
(`src/mk/handlers.py`, lines 28-29). -/
def decodeErrMsg (e : DecodeErr) : String :=
  "JSON decode error. " ++ e.msg ++ ": line " ++ toString e.lineno ++
  " column " ++ toString e.colno ++ " (char " ++ toString e.pos ++ ")"

/-- Source `handlers.load_json_string` (`src/mk/handlers.py`, lines 20-31).
`jsonLoads` stands for the stdlib `json.loads`. -/
def load_json_string (jsonLoads : String → Except DecodeErr JsonVal)
    (data : String) : List (String × JsonVal) × Option String :=
  match jsonLoads data with
  | .ok (.obj o) => (o, none)
  | .ok _ => ([], some "Unsupported JSON format")
  | .error e => ([], some (decodeErrMsg e))

/-- Source `handlers.load_json_file` (`src/mk/handlers.py`, lines 33-46).
`fs` maps a path to the file's contents when the file exists; a missing
file raises `FileNotFoundError` (errno 2), rendered as in the source. -/
def load_json_file (jsonLoads : String → Except DecodeErr JsonVal)
    (fs : String → Option String) (file : String) :
    List (String × JsonVal) × Option String :=
  match fs file with
  | none => ([], some ("2 No such file " ++ file))
  | some content =>
    match jsonLoads content with
    | .ok (.obj o) => (o, none)
    | .ok _ => ([], some ("Unsupported JSON format in " ++ file))
    | .error e => ([], some (decodeErrMsg e ++ ". File " ++ file))

/-- Python `str.strip()`: drop whitespace from both ends. -/
def pyStrip (s : String) : String :=
  ((s.toList.dropWhile Char.isWhitespace).reverse.dropWhile Char.isWhitespace).reverse.asString

/-- Source `handlers.load_json_data` (`src/mk/handlers.py`, lines 48-52): the
Input Resolver.  Strips surrounding whitespace, then dispatches on whether
the stripped string names an existing file (`pathlib.Path(data).is_file()`,
modelled by membership in `fs`). -/
def load_json_data (jsonLoads : String → Except DecodeErr JsonVal)
    (fs : String → Option String) (data : String) :
    List (String × JsonVal) × Option String :=
  let stripped := pyStrip data
  if (fs stripped).isSome then load_json_file jsonLoads fs stripped
  else load_json_string jsonLoads stripped

/-- The frozen dataclass `Settings` of `src/mk/settings.py` (lines 12-16)
with its field defaults: `host = ''`, `api_request_timeout = 0`,
`shutdown_disabled = False`. -/
structure Settings where
  host : String := ""
  api_request_timeout : Int := 0
  shutdown_disabled : Bool := false
  deriving Repr, DecidableEq

/-- Source `Settings.generate` (`src/mk/settings.py`, lines 59-65). -/
def Settings.generate (host : String) (api_request_timeout : Int)
    (shutdown_disabled : Bool) : Settings :=
  { host := host, api_request_timeout := api_request_timeout,
    shutdown_disabled := shutdown_disabled }

/-- The `Settings` dataclass as built by `Settings.load` via
`generate(**json_settings)`: under Python's dynamic typing the fields hold
whatever JSON values the file supplied. -/
structure PySettings where
  host : JsonVal
  api_request_timeout : JsonVal
  shutdown_disabled : JsonVal
  deriving Repr

/-- Key lookup in a decoded JSON object (Python `dict` access through
keyword expansion; JSON objects have unique keys). -/
def lookupKey (j : List (String × JsonVal)) (k : String) : Option JsonVal :=
  (j.find? (fun p => p.1 = k)).map Prod.snd

/-- Source `Settings.load` (`src/mk/settings.py`, lines 18-43), applied to a file
that opened and parsed as a JSON object `j`.  `generate(**json_settings)`
requires exactly the keys `host`, `api_request_timeout` and
`shutdown_disabled`: a missing or extra key raises a `TypeError`, which no
`except` clause of `load` catches — modelled as `Except.error`.  On the
non-raising path the three validation `if`s run in sequence, a later
error message overwriting an earlier one, and the function returns the
(possibly invalid) record together with the error. -/
def settingsLoadJson (settings_file : String) (j : List (String × JsonVal)) :
    Except String (PySettings × Option String) :=
  match lookupKey j "host", lookupKey j "api_request_timeout",
        lookupKey j "shutdown_disabled" with
  | some vh, some vt, some vs =>
    if j.length = 3 then
      let new_settings : PySettings :=
        { host := vh, api_request_timeout := vt, shutdown_disabled := vs }
      let err0 : Option String := none
      let err1 : Option String :=
        if pyTruthy new_settings.host then err0
        else some ("Default host not set in " ++ settings_file)
      let err2 : Option String :=
        if pyTruthy new_settings.api_request_timeout then err1
        else some ("api_request_timeout not set in " ++ settings_file)
      let err3 : Option String :=
        match new_settings.shutdown_disabled with
        | JsonVal.null => some ("shutdown_disabled not set in " ++ settings_file)
        | _ => err2
      .ok (new_settings, err3)
    else .error "TypeError: generate() got an unexpected keyword argument"
  | _, _, _ => .error "TypeError: generate() missing required positional argument"

/-- The Settings Store (`handlers.Settings`, `src/mk/handlers.py`,
lines 416-464): settings file (modelled by its on-disk content, `none`
when the file does not exist), optional current record, autosave flag
(default `True`). -/
structure SettingsStore where
  fileContent : Option String := none
  current : Option Settings := none
  autosave : Bool := true
  deriving Repr, DecidableEq

/-- Source `handlers.Settings.save` (`src/mk/handlers.py`, lines 429-432).
`dump` stands for `json.dumps(asdict(record), indent=4)`; `writeOutcome`
is the OS outcome of `Settings.write` (`none` = success, `some e` = the
caught I/O error's message), under which the file content is unchanged
(all caught write errors arise at `open`). -/
def SettingsStore.save (dump : Settings → String) (writeOutcome : Option String)
    (st : SettingsStore) : SettingsStore × Option String :=
  match st.current with
  | some c =>
    match writeOutcome with
    | none => ({ st with fileContent := some (dump c) }, none)
    | some e => (st, some e)
  | none => (st, some "No current settings found to save")

/-- Source `handlers.Settings._autosaved` (`src/mk/handlers.py`, lines 434-436):
save only when autosave is enabled (returning `None` otherwise). -/
def SettingsStore.autosaved (dump : Settings → String) (writeOutcome : Option String)
    (st : SettingsStore) : SettingsStore × Option String :=
  if st.autosave then st.save dump writeOutcome else (st, none)

/-- Source `handlers.Settings.generate` (`src/mk/handlers.py`, lines 438-442):
replace the current record, then autosave. -/
def SettingsStore.generate (dump : Settings → String) (writeOutcome : Option String)
    (host : String) (api_request_timeout : Int) (shutdown_disabled : Bool)
    (st : SettingsStore) : SettingsStore × Option String :=
  SettingsStore.autosaved dump writeOutcome
    { st with current := some (Settings.generate host api_request_timeout shutdown_disabled) }

/-- Source `handlers.Settings.change_host` (`src/mk/handlers.py`, lines 444-447).
Reading `self.current` when no record was ever set raises an
`AttributeError`, modelled as `Except.error ()`. -/
def SettingsStore.change_host (dump : Settings → String) (writeOutcome : Option String)
    (host : String) (st : SettingsStore) :
    Except Unit (SettingsStore × Option String) :=
  match st.current with
  | none => .error ()
  | some c =>
    .ok (SettingsStore.autosaved dump writeOutcome
      { st with current := some (Settings.generate host c.api_request_timeout
                                   c.shutdown_disabled) })

/-- Source `handlers.Settings.change_api_request_timeout` (`src/mk/handlers.py`,
lines 449-452). -/
def SettingsStore.change_api_request_timeout (dump : Settings → String)
    (writeOutcome : Option String) (timeout : Int) (st : SettingsStore) :
    Except Unit (SettingsStore × Option String) :=
  match st.current with
  | none => .error ()
  | some c =>
    .ok (SettingsStore.autosaved dump writeOutcome
      { st with current := some (Settings.generate c.host timeout c.shutdown_disabled) })

/-- Source `handlers.Settings.enable_shutdown` (`src/mk/handlers.py`,
lines 454-458): sets `shutdown_disabled` to `False`. -/
def SettingsStore.enable_shutdown (dump : Settings → String)
    (writeOutcome : Option String) (st : SettingsStore) :
    Except Unit (SettingsStore × Option String) :=
  match st.current with
  | none => .error ()
  | some c =>
    .ok (SettingsStore.autosaved dump writeOutcome
      { st with current := some (Settings.generate c.host c.api_request_timeout false) })

/-- Source `handlers.Settings.disable_shutdown` (`src/mk/handlers.py`,
lines 460-464): sets `shutdown_disabled` to `True`. -/
def SettingsStore.disable_shutdown (dump : Settings → String)
    (writeOutcome : Option String) (st : SettingsStore) :
    Except Unit (SettingsStore × Option String) :=
  match st.current with
  | none => .error ()
  | some c =>
    .ok (SettingsStore.autosaved dump writeOutcome
      { st with current := some (Settings.generate c.host c.api_request_timeout true) })

/-- The three global-delay models of `src/mk/models.py`.  Log-normal
`sigma` is a Python float, modelled as a rational. -/
inductive DelayModel : Type where
  | fixedDelay (fixedDelay : Int)
  | uniform (lower upper : Int)
  | lognormal (median : Int) (sigma : ℚ)
  deriving Repr, DecidableEq

/-- Constructing `FixedDelay(delay)` (`src/mk/models.py`, lines 53-62):
`__post_init__` raises `ValueError` on a negative delay (the `isinstance`
check cannot fire here since the caller always passes `int(...)`). -/
def mkFixedDelay (delay : Int) : Except String DelayModel :=
  if delay < 0 then .error "FixedDelay value should be equal or grater than 0"
  else .ok (.fixedDelay delay)

/-- Constructing `Uniform(lower, upper)` (`src/mk/models.py`,
lines 35-50): `ValueError` on a negative bound or on `lower > upper`. -/
def mkUniform (lower upper : Int) : Except String DelayModel :=
  if lower < 0 ∨ upper < 0 then
    .error "Lower and upper values should be equal or grater than 0"
  else if lower > upper then .error "Lower value should be less than upper"
  else .ok (.uniform lower upper)

/-- Constructing `LogNormal(median, sigma)` (`src/mk/models.py`,
lines 14-29): `ValueError` on a negative median or sigma. -/
def mkLogNormal (median : Int) (sigma : ℚ) : Except String DelayModel :=
  if median < 0 ∨ sigma < 0 then
    .error "Median and sigma values should be equal or grater than 0"
  else .ok (.lognormal median sigma)

/-- The outcome of the CLI delay command: either an HTTP request carrying
the validated delay model is issued to the remote service
(`api.Service.update_settings`), or a local error is returned and no
request is made. -/
inductive DelayOutcome : Type where
  | request (d : DelayModel)
  | localError (msg : String)
  deriving Repr, DecidableEq

/-- Error message of the one-argument branch of `Cli._service_delay`
(`src/mk/cli.py`, line 204). -/
def singleIntErrMsg : String :=
  "Expected to get single integer value, 'service -h' for more info."

/-- Error message of the two-argument branch of `Cli._service_delay`
(`src/mk/cli.py`, lines 212-214). -/
def argTypesErrMsg : String :=
  "Unexpected argument types. Expected: INT -> fixed; INT INT -> uniform; " ++
  "INT FLOAT -> log normal 'service -h' for more info."

/-- Source `Cli._service_delay` (`src/mk/cli.py`, lines 199-216).  `parseInt` and
`parseFloat` stand for Python's `int(...)` / `float(...)` on strings
(`none` = `ValueError`).  With one argument: fixed delay; a `ValueError`
from either `int(...)` or the `FixedDelay` validator is caught by the same
`except`.  With two arguments: try uniform (a `ValueError` from `int` or
the `Uniform` validator falls through), then log-normal, then the local
type error.  `.request d` marks that `update_settings` is invoked with
delay model `d` (the subsequent envelope reduction is modelled by
`give_response`). -/
def service_delay (parseInt : String → Option Int) (parseFloat : String → Option ℚ)
    (args : List String) : DelayOutcome :=
  match args with
  | [a] =>
    match parseInt a with
    | some n =>
      match mkFixedDelay n with
      | .ok d => .request d
      | .error _ => .localError singleIntErrMsg
    | none => .localError singleIntErrMsg
  | [a, b] =>
    let uniformTry : Option DelayModel :=
      match parseInt a, parseInt b with
      | some l, some u =>
        match mkUniform l u with
        | .ok d => some d
        | .error _ => none
      | _, _ => none
    match uniformTry with
    | some d => .request d
    | none =>
      match parseInt a, parseFloat b with
      | some m, some s =>
        match mkLogNormal m s with
        | .ok d => .request d
        | .error _ => .localError argTypesErrMsg
      | _, _ => .localError argTypesErrMsg
  | l =>
    .localError ("Unexpected number of arguments " ++ toString l.length ++
                 ". Expected from 1 to 2")

/-- Decimal digit accumulation for `pyIntOfString`. -/
def parseDigitsAux : List Char → Nat → Option Nat
  | [], acc => some acc
  | c :: rest, acc =>
    if c.isDigit then parseDigitsAux rest (acc * 10 + (c.toNat - 48)) else none

/-- Parse a non-empty all-digit character list as a natural number. -/
def parseDigits : List Char → Option Nat
  | [] => none
  | l => parseDigitsAux l 0

/-- Python `int(s)` restricted to the decimal integer strings the claims
exercise; agrees with CPython on every string of an optional minus sign
followed by digits (and rejects strings CPython would reject among the
inputs considered here, such as floats with a decimal point). -/
def pyIntOfString (s : String) : Option Int :=
  match s.toList with
  | '-' :: rest => (parseDigits rest).map (fun n => -(n : Int))
  | l => (parseDigits l).map (fun n => (n : Int))

/-- Python `float(s)` on the same strings (an integer string parses to the
corresponding float exactly). -/
def pyFloatOfString (s : String) : Option ℚ :=
  (pyIntOfString s).map (fun n => (n : ℚ))

/-- One iteration of the `for` loop of `cli.iterate_request`
(`src/mk/cli.py`, lines 27-32): appends the pretty-printed payload
(`dumps` stands for `json.dumps(data, indent=4)`) and the ID-prefixed
error to the two string accumulators. -/
def iterLoopBody {α : Type} (dumps : α → String)
    (function : String → Option α × Option String) (acc : String × String)
    (request_id : String) : String × String :=
  let (data, err) := function request_id
  let result_data :=
    match data with
    | some d => acc.1 ++ dumps d ++ "\n"
    | none => acc.1
  let result_err :=
    match err with
    | some e => acc.2 ++ request_id ++ ": " ++ e ++ "\n"
    | none => acc.2
  (result_data, result_err)

/-- The full `cli.iterate_request`: fold the loop body over the IDs
starting from two empty accumulators. -/
def iterate_request {α : Type} (dumps : α → String)
    (function : String → Option α × Option String) (args : List String) :
    String × Option String :=
  let acc := args.foldl (iterLoopBody dumps function) ("", "")
  (acc.1, if acc.2 = "" then none else some acc.2)

/-- In-order concatenation of a list of strings (spec-side helper for the
Batch Iterator theorems). -/
def concatAll : List String → String
  | [] => ""
  | s :: rest => s ++ concatAll rest

/-- The payload fragment one ID contributes to the Batch Iterator's
aggregate output. -/
def payloadPiece {α : Type} (dumps : α → String)
    (function : String → Option α × Option String) (i : String) : String :=
  match (function i).1 with
  | some d => dumps d ++ "\n"
  | none => ""

/-- The error fragment one ID contributes to the Batch Iterator's
aggregate error. -/
def errorPiece {α : Type} (function : String → Option α × Option String)
    (i : String) : String :=
  match (function i).2 with
  | some e => i ++ ": " ++ e ++ "\n"
  | none => ""

/-- A JSON-decoder oracle on which every input fails to parse with
CPython's initial-position message (the behaviour of `json.loads` on a
bare file path such as `/tmp/absent.json`). -/
def jsonLoadsAllFail : String → Except DecodeErr JsonVal :=
  fun _ => .error { msg := "Expecting value", lineno := 1, colno := 1, pos := 0 }

/-- A file system with no files. -/
def fsEmpty : String → Option String := fun _ => none

/-- A one-file file system: `data.json` holds the marker contents
`FILE-CONTENT`. -/
def fsOneFile : String → Option String :=
  fun p => if p = "data.json" then some "FILE-CONTENT" else none

/-- A JSON-decoder oracle for the resolver witnesses: the file contents
parse to the object with one pair `test ↦ data`, the literal `12345`
parses to that number, and everything else fails to parse. -/
def jsonLoadsSample : String → Except DecodeErr JsonVal :=
  fun s =>
    if s = "FILE-CONTENT" then .ok (.obj [("test", .str "data")])
    else if s = "12345" then .ok (.num 12345)
    else .error { msg := "Expecting value", lineno := 1, colno := 1, pos := 0 }

/-- A concrete single-ID operation for the Batch Iterator witnesses:
ID `b` fails with error `boom`, every other ID returns a payload. -/
def batchOp : String → Option Unit × Option String :=
  fun i => if i = "b" then (none, some "boom") else (some (), none)

/-- A concrete payload renderer for the Batch Iterator witnesses. -/
def unitDumps : Unit → String := fun _ => "payload"

/-- A concrete settings serializer standing for
`json.dumps(asdict(record), indent=4)` in the Settings Store witnesses. -/
def sampleDump : Settings → String := fun _ => "serialized-settings"

theorem string_append_eq_empty {a b : String} : a ++ b = "" ↔ a = "" ∧ b = "" := by
  rw [@String.ext_iff (a ++ b) "", @String.ext_iff a "", @String.ext_iff b ""]
  simp [String.data_append]

/-- C5 counterexample: the `Settings` dataclass default for
`shutdown_disabled` is `False`, not `True` — a record constructed without
an explicit shutdown flag has `shutdown_disabled = false`. -/
theorem c5_counterexample :
    ({} : Settings).shutdown_disabled = false ∧
    ({} : Settings).shutdown_disabled ≠ true := by
  exact ⟨rfl, by decide⟩

/-- C5 (amended): the Settings Record's `shutdown_disabled` field defaults
to `false` (along with `host = ""` and `api_request_timeout = 0`), so at
the record level remote shutdown is NOT disabled unless the flag is
explicitly set. -/
theorem c5_shutdown_default :
    ({} : Settings) =
      { host := "", api_request_timeout := 0, shutdown_disabled := false } :=
  rfl

/-- C1 counterexample: an envelope carrying a transport error
(`status_code = 0`, `error` populated with the fixed timeout message),
reduced by `give_response` with accepted set `(200,)`, yields the
status-set error about code `0` — not the transport-error string. -/
theorem c1_counterexample :
    (give_response { status_code := 0, error := some "The request timed out." }
        [200]).2 = some "Expected one of (200,) HTTP codes, got 0" ∧
    (give_response { status_code := 0, error := some "The request timed out." }
        [200]).2 ≠ some "The request timed out." := by
  exact ⟨rfl, by decide⟩

/-- C1 (amended): `give_response` never reads the envelope's `error`
field.  For an envelope with a transport error (`status_code = 0`,
populated `error`) and any accepted set, the payload is the envelope's
`data`, the Domain Result error is the ordinary status-set error (`none`
when `0` is accepted, else the `Expected one of ... got 0` message), and
the result is identical to the reduction of the same envelope with the
transport error erased: the transport-error string is never surfaced. -/
theorem c1_transport_error_ignored (r : Response) (S : List Nat) (e : String)
    (he : r.error = some e) (h0 : r.status_code = 0) :
    (give_response r S).1 = r.data ∧
    (give_response r S).2 =
      (if 0 ∈ S then none
       else some ("Expected one of " ++ pyTupleRepr S ++ " HTTP codes, got " ++
                  toString (0 : Nat))) ∧
    give_response r S = give_response { r with error := none } S := by
  refine ⟨rfl, ?_, rfl⟩
  simp [give_response, h0]

/-- C1 witness: the amended reduction evaluated on the timed-out envelope
with accepted set `(200,)`. -/
theorem c1_witness :
    (give_response { status_code := 0, error := some "The request timed out." }
        [200]).2 =
      (if 0 ∈ [200] then none
       else some ("Expected one of " ++ pyTupleRepr [200] ++
                  " HTTP codes, got " ++ toString (0 : Nat))) :=
  (c1_transport_error_ignored
    { status_code := 0, error := some "The request timed out." } [200]
    "The request timed out." rfl rfl).2.1

/-- C7: for an envelope without a transport error and any accepted-status
set, `give_response` passes `data` through unconditionally and errors
exactly when the status code is outside the set, rendering the set as a
Python tuple (`(201,)` for the singleton 201). -/
theorem c7_status_set_reduction (r : Response) (S : List Nat)
    (h : r.error = none) :
    (give_response r S).1 = r.data ∧
    ((give_response r S).2 = none ↔ r.status_code ∈ S) ∧
    (r.status_code ∉ S →
      (give_response r S).2 =
        some ("Expected one of " ++ pyTupleRepr S ++ " HTTP codes, got " ++
              toString r.status_code)) ∧
    pyTupleRepr [201] = "(201,)" := by
  refine ⟨rfl, ?_, ?_, rfl⟩
  · by_cases hmem : r.status_code ∈ S <;> simp [give_response, hmem]
  · intro hmem; simp [give_response, hmem]

/-- C7 witness: an envelope with status 200 and accepted set `(201,)`
yields the exact rendered error and passes its data through. -/
theorem c7_witness :
    (give_response { status_code := 200, reason := "OK", url := "u",
                     data := some (.str "test_data") } [201]).2 =
      some ("Expected one of " ++ pyTupleRepr [201] ++ " HTTP codes, got " ++
            toString (200 : Nat)) ∧
    (give_response { status_code := 200, reason := "OK", url := "u",
                     data := some (.str "test_data") } [201]).1 =
      some (.str "test_data") := by
  have h := c7_status_set_reduction
    { status_code := 200, reason := "OK", url := "u",
      data := some (.str "test_data") } [201] rfl
  exact ⟨h.2.2.1 (by decide), h.1⟩

/-- C2: evaluation at the failing input.  For a 404 envelope with no
transport error, both by-ID reductions return the generic
`Unexpected response status code 404 ...` message — the `status != 200`
branch overwrites the not-found message, which is unreachable — while a
200 envelope yields no error and a 500 envelope yields the generic
message, as claimed. -/
theorem c2_by_id_404_overwritten :
    mappings_by_id_reduce
        ⟨404, "Not Found", "http://host/__admin/mappings/x", none, none⟩ =
      (none, some ("Unexpected response status code 404 Not Found from " ++
                   "http://host/__admin/mappings/x")) ∧
    (mappings_by_id_reduce
        ⟨404, "Not Found", "http://host/__admin/mappings/x", none, none⟩).2 ≠
      some ("No mapping with such id on service " ++
            "http://host/__admin/mappings/x") ∧
    journal_by_id_reduce
        ⟨404, "Not Found", "http://host/__admin/requests/x", none, none⟩ =
      (none, some ("Unexpected response status code 404 Not Found from " ++
                   "http://host/__admin/requests/x")) ∧
    (journal_by_id_reduce
        ⟨404, "Not Found", "http://host/__admin/requests/x", none, none⟩).2 ≠
      some ("No request with such id in Journal service " ++
            "http://host/__admin/requests/x") ∧
    mappings_by_id_reduce ⟨200, "OK", "u", none, none⟩ = (none, none) ∧
    mappings_by_id_reduce ⟨500, "Server Error", "u", none, none⟩ =
      (none, some "Unexpected response status code 500 Server Error from u") := by
  exact ⟨rfl, by decide, rfl, by decide, rfl, rfl⟩

/-- C3: evaluation at the failing input.  Loading a settings file missing
the `host` key raises an uncaught `TypeError` from
`Settings.generate(**json_settings)` instead of returning an error naming
the field; with all three keys present but an empty host, the in-band
validation error is returned as the claim describes. -/
theorem c3_missing_key_raises :
    settingsLoadJson "settings.json"
        [("api_request_timeout", .num 20), ("shutdown_disabled", .bool true)] =
      .error "TypeError: generate() missing required positional argument" ∧
    settingsLoadJson "settings.json"
        [("host", .str ""), ("api_request_timeout", .num 20),
         ("shutdown_disabled", .bool true)] =
      .ok ({ host := .str "", api_request_timeout := .num 20,
             shutdown_disabled := .bool true },
           some "Default host not set in settings.json") ∧
    settingsLoadJson "settings.json"
        [("host", .str "https://mock.io"), ("api_request_timeout", .num 20),
         ("shutdown_disabled", .bool true)] =
      .ok ({ host := .str "https://mock.io", api_request_timeout := .num 20,
             shutdown_disabled := .bool true }, none) := by
  exact ⟨rfl, rfl, rfl⟩

/-- C6: every processed transport call satisfies exactly one of: the call
raised (envelope has `status_code = 0` and a populated error string), or
the exchange completed (envelope has `status_code ≠ 0` — given that a
completed HTTP exchange carries a nonzero wire status — and no error),
regardless of what the HTTP status was. -/
theorem c6_envelope_invariant (outcome : Except RequestExn HttpResp)
    (h : ∀ r, outcome = .ok r → r.status_code ≠ 0) :
    Xor'
      ((∃ e, outcome = .error e) ∧
        (processResponse outcome).status_code = 0 ∧
        ∃ s, (processResponse outcome).error = some s ∧ s ≠ "")
      ((∃ r, outcome = .ok r) ∧
        (processResponse outcome).status_code ≠ 0 ∧
        (processResponse outcome).error = none) := by
  cases outcome with
  | error e =>
    left
    refine ⟨⟨⟨e, rfl⟩, rfl, exnMessage e, rfl, by cases e <;> decide⟩, ?_⟩
    intro hb
    exact hb.2.1 rfl
  | ok r =>
    right
    refine ⟨⟨⟨r, rfl⟩, h r rfl, rfl⟩, ?_⟩
    intro ha
    exact h r rfl ha.2.1

/-- C6 witness: the invariant instantiated at a raised timeout and at a
completed 500 exchange. -/
theorem c6_witness :
    ((processResponse (.error .timeout)).status_code = 0 ∧
      (processResponse (.error .timeout)).error ≠ none) ∧
    ((processResponse (.ok ⟨500, "Server Error", "u", none⟩)).status_code ≠ 0 ∧
      (processResponse (.ok ⟨500, "Server Error", "u", none⟩)).error = none) := by
  constructor
  · have hx := c6_envelope_invariant (.error .timeout)
      (by intro r hr; exact absurd hr (by simp))
    rcases hx with ⟨⟨_, h0, s, hs, _⟩, _⟩ | ⟨⟨⟨r, hr⟩, _⟩, _⟩
    · exact ⟨h0, by rw [hs]; simp⟩
    · exact absurd hr (by simp)
  · have hx := c6_envelope_invariant (.ok ⟨500, "Server Error", "u", none⟩)
      (by intro r hr; injection hr with hr; rw [← hr]; decide)
    rcases hx with ⟨⟨⟨e, he⟩, _⟩, _⟩ | ⟨⟨_, hne, herr⟩, _⟩
    · exact absurd he (by simp)
    · exact ⟨hne, herr⟩

/-- C4 counterexample: uniform bounds `10 5` with `lower > upper` are NOT
rejected locally — the `ValueError` raised by the `Uniform` validator is
caught by the same `except` as an `int()` parse failure, so
`Cli._service_delay` falls back to the log-normal branch and issues an
HTTP request carrying `LogNormal(10, 5.0)`. -/
theorem c4_counterexample :
    service_delay pyIntOfString pyFloatOfString ["10", "5"] =
      .request (.lognormal 10 5) := by
  rfl

/-- C4 (amended): a negative fixed delay is rejected locally with no
request; a two-argument delay whose uniform interpretation fails and whose
log-normal fallback is also invalid (negative median or sigma) is rejected
locally with no request; but uniform bounds with `0 ≤ upper < lower` are
reinterpreted: the CLI issues a log-normal request with
`median = lower, sigma = upper` instead of rejecting them. -/
theorem c4_delay_validation (p : String → Option Int) (q : String → Option ℚ)
    (a b : String) (n l u : Int) (s : ℚ) :
    (p a = some n → n < 0 →
      service_delay p q [a] = .localError singleIntErrMsg) ∧
    (p a = some l → p b = some u → (l < 0 ∨ u < 0 ∨ l > u) → q b = some s →
      (l < 0 ∨ s < 0) →
      service_delay p q [a, b] = .localError argTypesErrMsg) ∧
    (p a = some l → p b = some u → 0 ≤ l → 0 ≤ u → l > u → q b = some s →
      0 ≤ s →
      service_delay p q [a, b] = .request (.lognormal l s)) := by
  refine ⟨?_, ?_, ?_⟩
  · intro hp hn
    simp [service_delay, hp, mkFixedDelay, hn]
  · intro hpa hpb hbad hq hlogbad
    have huni : (match mkUniform l u with
        | .ok d => some d
        | .error _ => none) = (none : Option DelayModel) := by
      by_cases h1 : l < 0 ∨ u < 0
      · simp [mkUniform, h1]
      · have h2 : l > u := by
          rcases hbad with h | h | h
          · exact absurd (Or.inl h) h1
          · exact absurd (Or.inr h) h1
          · exact h
        simp [mkUniform, h1, h2]
    have hlog : mkLogNormal l s =
        .error "Median and sigma values should be equal or grater than 0" := by
      simp [mkLogNormal, hlogbad]
    simp [service_delay, hpa, hpb, huni, hq, hlog]
  · intro hpa hpb hl hu hlu hq hs
    have huni : (match mkUniform l u with
        | .ok d => some d
        | .error _ => none) = (none : Option DelayModel) := by
      simp [mkUniform, not_lt.mpr hl, not_lt.mpr hu, hlu]
    have hlog : mkLogNormal l s = .ok (.lognormal l s) := by
      simp [mkLogNormal, not_lt.mpr hl, not_lt.mpr hs]
    simp [service_delay, hpa, hpb, huni, hq, hlog]

/-- C4 witness: a negative fixed delay (`-1`) and the spec's
`lognormal(5, -1)` example (negative sigma) both produce local errors. -/
theorem c4_witness :
    service_delay pyIntOfString pyFloatOfString ["-1"] =
      .localError singleIntErrMsg ∧
    service_delay pyIntOfString pyFloatOfString ["5", "-1"] =
      .localError argTypesErrMsg := by
  constructor
  · exact (c4_delay_validation pyIntOfString pyFloatOfString "-1" "" (-1) 0 0
      0).1 (by rfl) (by decide)
  · exact (c4_delay_validation pyIntOfString pyFloatOfString "5" "-1" 0 5 (-1)
      (-1)).2.1 (by rfl) (by rfl) (by right; left; decide) (by rfl)
      (by right; decide)

/-- C8 counterexample: a nonexistent path handed to the Input Resolver
(`load_json_data`) is not recognized as a file, falls through to the
literal-JSON branch, and yields a JSON decode error — not the claimed
"no such file" error. -/
theorem c8_counterexample :
    load_json_data jsonLoadsAllFail fsEmpty "/tmp/absent.json" =
      ([], some "JSON decode error. Expecting value: line 1 column 1 (char 0)") ∧
    (load_json_data jsonLoadsAllFail fsEmpty "/tmp/absent.json").2 ≠
      some "2 No such file /tmp/absent.json" := by
  exact ⟨rfl, by decide⟩

/-- C8 (amended): the Input Resolver strips surrounding whitespace, parses
the named file's contents when the stripped string is an existing file and
otherwise parses the stripped string itself; a non-object top-level value
yields an empty object with the "unsupported JSON format" error (the file
variant naming the file); a valid JSON-object input yields that object
with no error; a nonexistent path is treated as a JSON literal and yields
a decode error, while the "no such file" error arises from the file loader
`load_json_file` when the named file is absent. -/
theorem c8_input_resolver (jl : String → Except DecodeErr JsonVal)
    (fs : String → Option String) (s p content : String)
    (o : List (String × JsonVal)) (v : JsonVal) (e : DecodeErr) :
    (fs (pyStrip s) = none → jl (pyStrip s) = .ok (.obj o) →
      load_json_data jl fs s = (o, none)) ∧
    (fs (pyStrip s) = none → jl (pyStrip s) = .ok v → (∀ oo, v ≠ .obj oo) →
      load_json_data jl fs s = ([], some "Unsupported JSON format")) ∧
    (fs (pyStrip s) = none → jl (pyStrip s) = .error e →
      load_json_data jl fs s = ([], some (decodeErrMsg e))) ∧
    (fs (pyStrip s) = some content → jl content = .ok (.obj o) →
      load_json_data jl fs s = (o, none)) ∧
    (fs (pyStrip s) = some content → jl content = .ok v →
      (∀ oo, v ≠ .obj oo) →
      load_json_data jl fs s =
        ([], some ("Unsupported JSON format in " ++ pyStrip s))) ∧
    (fs p = none →
      load_json_file jl fs p = ([], some ("2 No such file " ++ p))) := by
  refine ⟨?_, ?_, ?_, ?_, ?_, ?_⟩
  · intro hfs hjl
    simp [load_json_data, hfs, load_json_string, hjl]
  · intro hfs hjl hv
    cases v with
    | obj oo => exact absurd rfl (hv oo)
    | null => simp [load_json_data, hfs, load_json_string, hjl]
    | bool x => simp [load_json_data, hfs, load_json_string, hjl]
    | num x => simp [load_json_data, hfs, load_json_string, hjl]
    | str x => simp [load_json_data, hfs, load_json_string, hjl]
    | arr x => simp [load_json_data, hfs, load_json_string, hjl]
  · intro hfs hjl
    simp [load_json_data, hfs, load_json_string, hjl]
  · intro hfs hjl
    simp [load_json_data, hfs, load_json_file, hjl]
  · intro hfs hjl hv
    cases v with
    | obj oo => exact absurd rfl (hv oo)
    | null => simp [load_json_data, hfs, load_json_file, hjl]
    | bool x => simp [load_json_data, hfs, load_json_file, hjl]
    | num x => simp [load_json_data, hfs, load_json_file, hjl]
    | str x => simp [load_json_data, hfs, load_json_file, hjl]
    | arr x => simp [load_json_data, hfs, load_json_file, hjl]
  · intro hfs
    simp [load_json_file, hfs]

/-- C8 witness: the amended resolver behaviour evaluated on a literal
object, a non-object literal (`12345`), an existing file, and the file
loader on a missing file. -/
theorem c8_witness :
    load_json_data jsonLoadsSample fsEmpty "FILE-CONTENT" =
      ([("test", .str "data")], none) ∧
    load_json_data jsonLoadsSample fsEmpty "12345" =
      ([], some "Unsupported JSON format") ∧
    load_json_data jsonLoadsSample fsOneFile "data.json" =
      ([("test", .str "data")], none) ∧
    load_json_file jsonLoadsSample fsEmpty "no_file.json" =
      ([], some "2 No such file no_file.json") := by
  refine ⟨?_, ?_, ?_, ?_⟩
  · exact (c8_input_resolver jsonLoadsSample fsEmpty "FILE-CONTENT" "" ""
      [("test", .str "data")] .null ⟨"", 0, 0, 0⟩).1 rfl rfl
  · exact (c8_input_resolver jsonLoadsSample fsEmpty "12345" "" "" []
      (.num 12345) ⟨"", 0, 0, 0⟩).2.1 rfl rfl
      (fun oo h => JsonVal.noConfusion h)
  · exact (c8_input_resolver jsonLoadsSample fsOneFile "data.json" ""
      "FILE-CONTENT" [("test", .str "data")] .null ⟨"", 0, 0, 0⟩).2.2.2.1
      rfl rfl
  · exact (c8_input_resolver jsonLoadsSample fsEmpty "" "no_file.json" "" []
      .null ⟨"", 0, 0, 0⟩).2.2.2.2.2 rfl

theorem iterLoopBody_foldl {α : Type} (dumps : α → String)
    (f : String → Option α × Option String) (ids : List String)
    (acc : String × String) :
    ids.foldl (iterLoopBody dumps f) acc =
      (acc.1 ++ concatAll (ids.map (payloadPiece dumps f)),
       acc.2 ++ concatAll (ids.map (errorPiece f))) := by
  induction ids generalizing acc with
  | nil => simp [concatAll]
  | cons i rest ih =>
    have hbody : iterLoopBody dumps f acc i =
        (acc.1 ++ payloadPiece dumps f i, acc.2 ++ errorPiece f i) := by
      unfold iterLoopBody payloadPiece errorPiece
      cases h1 : (f i).1 <;> cases h2 : (f i).2 <;>
        simp [h1, h2, String.append_empty, String.append_assoc]
    rw [List.foldl_cons, ih, hbody]
    simp [concatAll, String.append_assoc]

theorem errorPiece_eq_empty {α : Type} (f : String → Option α × Option String)
    (i : String) : errorPiece f i = "" ↔ (f i).2 = none := by
  unfold errorPiece
  cases h : (f i).2 with
  | none => simp
  | some e => simp [string_append_eq_empty]

theorem concatAll_eq_empty (l : List String) :
    concatAll l = "" ↔ ∀ x ∈ l, x = "" := by
  induction l with
  | nil => simp [concatAll]
  | cons x r ih => simp [concatAll, string_append_eq_empty, ih]

/-- C9: the Batch Iterator's aggregate payload is the in-input-order
concatenation of the pretty-printed non-absent payloads of every ID (so
no per-ID error short-circuits the iteration), and its aggregate error is
absent exactly when no ID produced an error, and otherwise is the
in-order concatenation of the ID-prefixed error lines. -/
theorem c9_batch_iterator {α : Type} (dumps : α → String)
    (f : String → Option α × Option String) (ids : List String) :
    (iterate_request dumps f ids).1 =
      concatAll (ids.map (payloadPiece dumps f)) ∧
    ((iterate_request dumps f ids).2 = none ↔ ∀ i ∈ ids, (f i).2 = none) ∧
    ((∃ i ∈ ids, (f i).2 ≠ none) →
      (iterate_request dumps f ids).2 =
        some (concatAll (ids.map (errorPiece f)))) := by
  have hfold := iterLoopBody_foldl dumps f ids ("", "")
  have herr : (∀ x ∈ ids.map (errorPiece f), x = "") ↔
      ∀ i ∈ ids, (f i).2 = none := by
    simp only [List.mem_map, forall_exists_index, and_imp]
    constructor
    · intro h i hi
      exact (errorPiece_eq_empty f i).mp (h (errorPiece f i) i hi rfl)
    · intro h x i hi hx
      rw [← hx]
      exact (errorPiece_eq_empty f i).mpr (h i hi)
  refine ⟨?_, ?_, ?_⟩
  · simp [iterate_request, hfold, String.empty_append]
  · simp only [iterate_request, hfold, String.empty_append]
    by_cases hc : concatAll (ids.map (errorPiece f)) = ""
    · have hall := herr.mp ((concatAll_eq_empty _).mp hc)
      rw [if_pos hc]
      simpa using hall
    · simp only [hc, if_neg hc]
      constructor
      · intro h; exact absurd h (by simp)
      · intro h
        exact absurd ((concatAll_eq_empty _).mpr (herr.mpr h)) hc
  · intro ⟨i, hi, hne⟩
    have hc : concatAll (ids.map (errorPiece f)) ≠ "" := by
      intro hc
      exact hne (herr.mp ((concatAll_eq_empty _).mp hc) i hi)
    simp [iterate_request, hfold, String.empty_append, hc]

/-- C9 witness: iterating over `["a", "b", "c"]` where `b` fails collects
the payloads of `a` and `c` and exactly one error line for `b`. -/
theorem c9_witness :
    (iterate_request unitDumps batchOp ["a", "b", "c"]).1 =
      "payload\npayload\n" ∧
    (iterate_request unitDumps batchOp ["a", "b", "c"]).2 = some "b: boom\n" := by
  have h := c9_batch_iterator unitDumps batchOp ["a", "b", "c"]
  constructor
  · rw [h.1]; rfl
  · rw [h.2.2 ⟨"b", by simp, by simp [batchOp]⟩]; rfl

/-- C10: with autosave disabled and a current record present, every
mutation of the Settings Store replaces the in-memory record with exactly
the new values, returns no error, and leaves the on-disk file content
unchanged (the result store differs from the input only in `current`).
With autosave enabled and a failing write, the record is still replaced in
memory, the file content is unchanged, and the save error is returned. -/
theorem c10_settings_store_mutations (dump : Settings → String)
    (w : Option String) (st : SettingsStore) (c : Settings) (host : String)
    (t : Int) (b : Bool) (e : String) (hc : st.current = some c) :
    (st.autosave = false →
      SettingsStore.generate dump w host t b st =
        ({ st with current := some (Settings.generate host t b) }, none) ∧
      SettingsStore.change_host dump w host st =
        .ok ({ st with current := some (Settings.generate host c.api_request_timeout c.shutdown_disabled) }, none) ∧
      SettingsStore.change_api_request_timeout dump w t st =
        .ok ({ st with current := some (Settings.generate c.host t c.shutdown_disabled) }, none) ∧
      SettingsStore.enable_shutdown dump w st =
        .ok ({ st with current := some (Settings.generate c.host c.api_request_timeout false) }, none) ∧
      SettingsStore.disable_shutdown dump w st =
        .ok ({ st with current := some (Settings.generate c.host c.api_request_timeout true) }, none)) ∧
    (st.autosave = true → w = some e →
      SettingsStore.generate dump w host t b st =
        ({ st with current := some (Settings.generate host t b) }, some e) ∧
      SettingsStore.change_host dump w host st =
        .ok ({ st with current := some (Settings.generate host c.api_request_timeout c.shutdown_disabled) }, some e) ∧
      SettingsStore.change_api_request_timeout dump w t st =
        .ok ({ st with current := some (Settings.generate c.host t c.shutdown_disabled) }, some e) ∧
      SettingsStore.enable_shutdown dump w st =
        .ok ({ st with current := some (Settings.generate c.host c.api_request_timeout false) }, some e) ∧
      SettingsStore.disable_shutdown dump w st =
        .ok ({ st with current := some (Settings.generate c.host c.api_request_timeout true) }, some e)) := by
  constructor
  · intro hoff
    refine ⟨?_, ?_, ?_, ?_, ?_⟩ <;>
      simp [SettingsStore.generate, SettingsStore.change_host,
            SettingsStore.change_api_request_timeout,
            SettingsStore.enable_shutdown, SettingsStore.disable_shutdown,
            SettingsStore.autosaved, SettingsStore.save, hc, hoff]
  · intro hon hw
    refine ⟨?_, ?_, ?_, ?_, ?_⟩ <;>
      simp [SettingsStore.generate, SettingsStore.change_host,
            SettingsStore.change_api_request_timeout,
            SettingsStore.enable_shutdown, SettingsStore.disable_shutdown,
            SettingsStore.autosaved, SettingsStore.save, hc, hon, hw]

/-- C10 witness: `change_host` with autosave disabled updates the record
and leaves the file content untouched; with autosave enabled and a failing
write it still updates the record and returns the write error. -/
theorem c10_witness :
    SettingsStore.change_host sampleDump none "https://www.google.com"
        ⟨some "orig", some ⟨"https://mock.io", 20, true⟩, false⟩ =
      .ok (⟨some "orig", some ⟨"https://www.google.com", 20, true⟩, false⟩, none) ∧
    SettingsStore.change_host sampleDump (some "write-failed")
        "https://www.google.com"
        ⟨some "orig", some ⟨"https://mock.io", 20, true⟩, true⟩ =
      .ok (⟨some "orig", some ⟨"https://www.google.com", 20, true⟩, true⟩,
           some "write-failed") := by
  constructor
  · exact ((c10_settings_store_mutations sampleDump none
      ⟨some "orig", some ⟨"https://mock.io", 20, true⟩, false⟩
      ⟨"https://mock.io", 20, true⟩ "https://www.google.com" 0 false "x"
      rfl).1 rfl).2.1
  · exact ((c10_settings_store_mutations sampleDump (some "write-failed")
      ⟨some "orig", some ⟨"https://mock.io", 20, true⟩, true⟩
      ⟨"https://mock.io", 20, true⟩ "https://www.google.com" 0 false
      "write-failed" rfl).2 rfl rfl).2.1
